import Mathlib

/-!
Shallow embedding of the EventManagment repository: the SQL schema with its
row-level-security policies (the supabase migration file), and the React
client logic for fetching events, submitting bookings and driving the
booking modal.  UUID columns are modelled as natural numbers, the
`decimal(10,2)` price column as an integer number of cents, and the SQL
`integer` capacity column as an integer.
-/

namespace EventMgmt

/-- Enum from the migration: CREATE TYPE booking_status AS ENUM
(pending, confirmed, cancelled). -/
inductive BookingStatus where
  | pending
  | confirmed
  | cancelled
deriving DecidableEq, Repr

/-- Status union of the client-side Booking interface in
src/types/index.ts: pending | confirmed | declined. -/
inductive ClientBookingStatus where
  | pending
  | confirmed
  | declined
deriving DecidableEq, Repr

/-- Label of a database booking_status value, as in the SQL enum. -/
def BookingStatus.toStr : BookingStatus → String
  | .pending => "pending"
  | .confirmed => "confirmed"
  | .cancelled => "cancelled"

/-- Label of a client-side status value, as the string literal in the
TypeScript union type. -/
def ClientBookingStatus.toStr : ClientBookingStatus → String
  | .pending => "pending"
  | .confirmed => "confirmed"
  | .declined => "declined"

/-- The labels of the SQL enum booking_status, in declaration order. -/
def dbBookingStatusStrings : List String := ["pending", "confirmed", "cancelled"]

/-- The string literals of the client-side status union, in declaration
order. -/
def clientBookingStatusStrings : List String := ["pending", "confirmed", "declined"]

/-- Acting identity (auth.uid() in the policies); uuid modelled as Nat. -/
abbrev Uid := Nat

/-- Row of the profiles table (timestamps omitted). -/
structure Profile where
  id : Uid
  username : Option String
  full_name : Option String
  avatar_url : Option String
  is_admin : Bool
deriving DecidableEq, Repr

/-- Row of the events table (timestamps omitted); price in cents. -/
structure Event where
  id : Nat
  title : String
  description : Option String
  date : String
  time : String
  location : String
  image_url : Option String
  price : Int
  capacity : Int
  category : Option String
  created_by : Option Uid
deriving DecidableEq, Repr

/-- Row of the bookings table (timestamps omitted). -/
structure Booking where
  id : Nat
  event_id : Nat
  user_id : Uid
  status : BookingStatus
  preferences : Option String
deriving DecidableEq, Repr

/-- The three tables of the schema. -/
structure DB where
  profiles : List Profile
  events : List Event
  bookings : List Booking
deriving DecidableEq, Repr

/-- Policy "Public profiles are viewable by everyone": USING (true). -/
def profilesSelectUsing (_uid : Uid) (_p : Profile) : Bool := true

/-- Policy "Events are viewable by everyone": USING (true). -/
def eventsSelectUsing (_uid : Uid) (_e : Event) : Bool := true

/-- The EXISTS subquery shared by both event-write policies:
EXISTS (SELECT 1 FROM profiles WHERE profiles.id = auth.uid()
AND profiles.is_admin = true). -/
def isAdminExists (db : DB) (uid : Uid) : Bool :=
  db.profiles.any (fun p => p.id == uid && p.is_admin)

/-- Policy "Admins can insert events": WITH CHECK (admin EXISTS subquery). -/
def eventsInsertCheck (db : DB) (uid : Uid) (_e : Event) : Bool :=
  isAdminExists db uid

/-- Policy "Admins can update events": USING (admin EXISTS subquery). -/
def eventsUpdateUsing (db : DB) (uid : Uid) (_e : Event) : Bool :=
  isAdminExists db uid

/-- Policy "Users can view own bookings": USING (auth.uid() = user_id). -/
def bookingsSelectUsing (uid : Uid) (b : Booking) : Bool :=
  uid == b.user_id

/-- Policy "Users can insert own bookings": WITH CHECK
(auth.uid() = user_id). -/
def bookingsInsertCheck (uid : Uid) (b : Booking) : Bool :=
  uid == b.user_id

/-- Policy "Users can update own bookings": USING (auth.uid() = user_id). -/
def bookingsUpdateUsing (uid : Uid) (b : Booking) : Bool :=
  uid == b.user_id

/-- SELECT on events under RLS: the rows passing the USING predicate. -/
def selectEvents (db : DB) (uid : Uid) : List Event :=
  db.events.filter (eventsSelectUsing uid)

/-- SELECT on profiles under RLS. -/
def selectProfiles (db : DB) (uid : Uid) : List Profile :=
  db.profiles.filter (profilesSelectUsing uid)

/-- SELECT on bookings under RLS. -/
def selectBookings (db : DB) (uid : Uid) : List Booking :=
  db.bookings.filter (bookingsSelectUsing uid)

/-- INSERT of an event row under RLS: admitted iff the WITH CHECK
predicate holds; the schema imposes no further value constraint on
price or capacity. -/
def insertEvent (db : DB) (uid : Uid) (e : Event) : Option DB :=
  if eventsInsertCheck db uid e then
    some { db with events := db.events ++ [e] }
  else
    none

/-- UPDATE events SET ... WHERE id = eid under RLS: rows failing the
USING predicate are out of the update's scope and stay unchanged. -/
def updateEvents (db : DB) (uid : Uid) (eid : Nat) (f : Event → Event) : DB :=
  { db with
    events := db.events.map
      (fun x => if x.id == eid && eventsUpdateUsing db uid x then f x else x) }

/-- INSERT of a booking row under RLS: admitted iff the WITH CHECK
predicate holds; no capacity or duplicate check exists in the schema. -/
def insertBooking (db : DB) (uid : Uid) (b : Booking) : Option DB :=
  if bookingsInsertCheck uid b then
    some { db with bookings := db.bookings ++ [b] }
  else
    none

/-- UPDATE bookings SET status = st WHERE id = bid under RLS: rows
failing the USING predicate stay unchanged. -/
def updateBookings (db : DB) (uid : Uid) (bid : Nat) (st : BookingStatus) : DB :=
  { db with
    bookings := db.bookings.map
      (fun b => if b.id == bid && bookingsUpdateUsing uid b then { b with status := st } else b) }

/-- The seven seeded events of the migration's INSERT statement (ids
assigned 1..7 in insertion order; created_by is NULL in the seed). -/
def seedEvents : List Event :=
  [ { id := 1, title := "Tech Conference 2024",
      description := some "Join us for the biggest tech conference of the year featuring industry leaders and innovative workshops.",
      date := "2024-04-15", time := "09:00",
      location := "Silicon Valley Convention Center",
      image_url := some "https://images.unsplash.com/photo-1505373877841-8d25f7d46678?ixlib=rb-1.2.1&auto=format&fit=crop&w=1600&q=80",
      price := 29999, capacity := 500, category := some "Technology",
      created_by := none },
    { id := 2, title := "Music Festival",
      description := some "Experience an unforgettable weekend of live music performances from top artists across multiple genres.",
      date := "2024-05-20", time := "16:00",
      location := "Central Park",
      image_url := some "https://images.unsplash.com/photo-1459749411175-04bf5292ceea?ixlib=rb-1.2.1&auto=format&fit=crop&w=1600&q=80",
      price := 14999, capacity := 1000, category := some "Music",
      created_by := none },
    { id := 3, title := "Food & Wine Festival",
      description := some "Savor exquisite cuisines and premium wines from around the world in this gastronomic celebration.",
      date := "2024-06-10", time := "14:00",
      location := "Downtown Food District",
      image_url := some "https://images.unsplash.com/photo-1555244162-803834f70033?ixlib=rb-1.2.1&auto=format&fit=crop&w=1600&q=80",
      price := 8999, capacity := 300, category := some "Food & Drink",
      created_by := none },
    { id := 4, title := "Art Exhibition",
      description := some "Discover contemporary masterpieces from emerging artists around the globe.",
      date := "2024-07-01", time := "10:00",
      location := "Modern Art Gallery",
      image_url := some "https://images.unsplash.com/photo-1531243269054-5ebf6f34081e?ixlib=rb-1.2.1&auto=format&fit=crop&w=1600&q=80",
      price := 2500, capacity := 200, category := some "Art",
      created_by := none },
    { id := 5, title := "Startup Pitch Night",
      description := some "Watch innovative startups pitch their ideas to top investors.",
      date := "2024-07-15", time := "18:00",
      location := "Innovation Hub",
      image_url := some "https://images.unsplash.com/photo-1559136555-9303baea8ebd?ixlib=rb-1.2.1&auto=format&fit=crop&w=1600&q=80",
      price := 5000, capacity := 150, category := some "Business",
      created_by := none },
    { id := 6, title := "Wellness Retreat",
      description := some "A day of mindfulness, yoga, and healthy living workshops.",
      date := "2024-08-01", time := "08:00",
      location := "Serenity Gardens",
      image_url := some "https://images.unsplash.com/photo-1544367567-0f2fcb009e0b?ixlib=rb-1.2.1&auto=format&fit=crop&w=1600&q=80",
      price := 19999, capacity := 100, category := some "Wellness",
      created_by := none },
    { id := 7, title := "Comedy Night",
      description := some "Laugh out loud with top stand-up comedians.",
      date := "2024-08-15", time := "20:00",
      location := "Laugh Factory",
      image_url := some "https://images.unsplash.com/photo-1527224857830-43a7acc85260?ixlib=rb-1.2.1&auto=format&fit=crop&w=1600&q=80",
      price := 4500, capacity := 250, category := some "Entertainment",
      created_by := none } ]

/-- Fixed page size of App (const ITEMS_PER_PAGE = 9). -/
def ITEMS_PER_PAGE : Nat := 9

/-- The shape of the paginated events query issued by fetchEvents:
an inclusive row range plus an ORDER BY column and direction. -/
structure EventsRequest where
  rangeFrom : Int
  rangeTo : Int
  orderColumn : String
  ascending : Bool
deriving DecidableEq, Repr

/-- The query built by fetchEvents for the current page:
.range((currentPage - 1) * ITEMS_PER_PAGE, currentPage * ITEMS_PER_PAGE - 1)
.order(date, ascending true). -/
def fetchEventsRequest (currentPage : Int) : EventsRequest :=
  { rangeFrom := (currentPage - 1) * (ITEMS_PER_PAGE : Int)
    rangeTo := currentPage * (ITEMS_PER_PAGE : Int) - 1
    orderColumn := "date"
    ascending := true }

/-- Server-side effect of the inclusive range on the date-ordered row
list: skip the rows before rangeFrom and keep rangeTo - rangeFrom + 1
rows. -/
def requestSlice (rows : List Event) (r : EventsRequest) : List Event :=
  (rows.drop r.rangeFrom.toNat).take (r.rangeTo - r.rangeFrom + 1).toNat

/-- Page-count computation of App: Math.ceil(totalCount / ITEMS_PER_PAGE). -/
def totalPages (totalCount : Nat) : Nat :=
  ⌈(totalCount : ℚ) / (ITEMS_PER_PAGE : ℚ)⌉₊

/-- Client-side Event shape from src/types/index.ts. -/
structure ClientEvent where
  id : Nat
  title : String
  description : Option String
  date : String
  time : String
  location : String
  imageUrl : Option String
  price : Int
  capacity : Int
  registeredCount : Int
deriving DecidableEq, Repr

/-- The per-row transform of fetchEvents building transformedEvents:
copies the fetched columns and sets registeredCount to the literal 0. -/
def transformEvent (e : Event) : ClientEvent :=
  { id := e.id
    title := e.title
    description := e.description
    date := e.date
    time := e.time
    location := e.location
    imageUrl := e.image_url
    price := e.price
    capacity := e.capacity
    registeredCount := 0 }

/-- EventCard's disabled condition on the booking button:
event.registeredCount >= event.capacity. -/
def soldOut (e : ClientEvent) : Bool :=
  e.registeredCount ≥ e.capacity

/-- EventCard's button label: Sold Out under the same condition,
else Book Now. -/
def bookLabel (e : ClientEvent) : String :=
  if soldOut e then "Sold Out" else "Book Now"

/-- The booking form data of BookingModal. -/
structure FormData where
  name : String
  email : String
  preferences : String
deriving DecidableEq, Repr

/-- The row object handed to .from(bookings).insert([...]) by
handleBookingSubmit. -/
structure BookingInsertPayload where
  event_id : Nat
  user_id : Uid
  preferences : String
  status : BookingStatus
deriving DecidableEq, Repr

/-- handleBookingSubmit of App: with no signed-in user or no selected
event it returns without inserting; otherwise it builds the single
insert payload with status pending. -/
def handleBookingSubmit (user : Option Uid) (selectedEventId : Option Nat)
    (formData : FormData) : List BookingInsertPayload :=
  match user, selectedEventId with
  | some u, some eid =>
      [{ event_id := eid, user_id := u,
         preferences := formData.preferences, status := .pending }]
  | _, _ => []

/-- The bookings row produced by executing an insert payload, with the
database-generated id filled in. -/
def payloadToRow (newId : Nat) (p : BookingInsertPayload) : Booking :=
  { id := newId, event_id := p.event_id, user_id := p.user_id,
    status := p.status, preferences := some p.preferences }

/-- State of BookingModal: form fields, the two busy/success flags and
whether the modal is still open (onClose not yet invoked). -/
structure ModalState where
  formData : FormData
  isSubmitting : Bool
  isSuccess : Bool
  isOpen : Bool
deriving DecidableEq, Repr

/-- Outcome of the awaited onSubmit promise. -/
inductive SubmitResult where
  | ok
  | err
deriving DecidableEq, Repr

/-- BookingModal's handleSubmit as a state transformer, up to the point
the handler returns (the 2-second timeout of the success branch has not
fired yet): setIsSubmitting(true); await onSubmit; on success
setIsSuccess(true); the catch block does nothing; finally
setIsSubmitting(false). -/
def handleSubmit (r : SubmitResult) (s : ModalState) : ModalState :=
  let s1 : ModalState := { s with isSubmitting := true }
  match r with
  | .ok =>
      let s2 : ModalState := { s1 with isSuccess := true }
      { s2 with isSubmitting := false }
  | .err =>
      { s1 with isSubmitting := false }

/-- The timeout callback of the success branch: hide the success view,
close the modal and reset the form. -/
def successTimeout (s : ModalState) : ModalState :=
  { s with isSuccess := false, isOpen := false,
           formData := { name := "", email := "", preferences := "" } }

/-- Disabled attribute of the modal's submit button: isSubmitting. -/
def submitDisabled (s : ModalState) : Bool :=
  s.isSubmitting

/-- Fixture: a database holding a single admin profile. -/
def dbAdminOnly : DB :=
  { profiles := [{ id := 1, username := none, full_name := none,
                   avatar_url := none, is_admin := true }]
    events := []
    bookings := [] }

/-- Fixture: an event row with a negative capacity, accepted by every
column constraint of the schema. -/
def negCapacityEvent : Event :=
  { id := 100, title := "x", description := none, date := "2024-01-01",
    time := "00:00", location := "loc", image_url := none,
    price := 0, capacity := -1, category := none, created_by := none }

/-- Fixture: a database holding one profile and one booking of that
profile whose status is confirmed. -/
def dbConfirmedBooking : DB :=
  { profiles := [{ id := 1, username := none, full_name := none,
                   avatar_url := none, is_admin := false }]
    events := []
    bookings := [{ id := 10, event_id := 5, user_id := 1,
                   status := .confirmed, preferences := none }] }

/-- The bookings row created by submitting the booking form for event
eid as user u with form data fd, once the database assigns id newId. -/
def submittedRow (u : Uid) (eid : Nat) (fd : FormData) (newId : Nat) : Booking :=
  payloadToRow newId
    { event_id := eid, user_id := u, preferences := fd.preferences, status := .pending }

lemma totalPages_eq (tc : Nat) : totalPages tc = (tc + 8) / 9 := by
  have h9 : (0:ℚ) < 9 := by norm_num
  apply Nat.le_antisymm
  · rw [totalPages, ITEMS_PER_PAGE, Nat.ceil_le]
    push_cast
    rw [div_le_iff₀ h9]
    exact_mod_cast (by omega : tc ≤ (tc + 8) / 9 * 9)
  · rcases Nat.eq_zero_or_pos tc with h0 | hpos
    · subst h0; simp
    · have hlt : (tc + 8) / 9 - 1 < ⌈(tc : ℚ) / ((ITEMS_PER_PAGE : ℕ) : ℚ)⌉₊ := by
        rw [Nat.lt_ceil, ITEMS_PER_PAGE]
        push_cast
        rw [lt_div_iff₀ h9]
        exact_mod_cast (by omega : ((tc + 8) / 9 - 1) * 9 < tc)
      rw [totalPages]
      omega

/-- Claim C1: every SELECT on events and on profiles returns every row,
and an INSERT or UPDATE on events is admitted exactly when a profiles
row exists whose id equals the acting identity and whose is_admin flag
is true; when no such row exists the insert yields none and the update
leaves the database unchanged. -/
theorem events_profiles_policy (db : DB) (uid : Uid) (e : Event) (eid : Nat)
    (f : Event → Event) :
    selectEvents db uid = db.events
    ∧ selectProfiles db uid = db.profiles
    ∧ ((insertEvent db uid e).isSome = isAdminExists db uid)
    ∧ (isAdminExists db uid = true ↔ ∃ p ∈ db.profiles, p.id = uid ∧ p.is_admin = true)
    ∧ updateEvents db uid eid f
        = (if isAdminExists db uid = true then
            { db with events := db.events.map (fun x => if x.id = eid then f x else x) }
          else db) := by
  refine ⟨?_, ?_, ?_, ?_, ?_⟩
  · simp [selectEvents, eventsSelectUsing]
  · simp [selectProfiles, profilesSelectUsing]
  · by_cases h : isAdminExists db uid <;> simp [insertEvent, eventsInsertCheck, h]
  · simp [isAdminExists, List.any_eq_true, Bool.and_eq_true, beq_iff_eq]
  · by_cases h : isAdminExists db uid
    · simp only [updateEvents, eventsUpdateUsing, h, Bool.and_true, if_pos]
      congr 1
      apply List.map_congr_left
      intro x _
      by_cases hx : x.id = eid <;> simp [hx]
    · simp only [updateEvents, eventsUpdateUsing, h, Bool.and_false, if_neg, if_false]
      simp

/-- Claim C2: a bookings INSERT is admitted exactly when the inserted
row's user_id equals the acting identity (independently of any admin
flag in the database), and a bookings UPDATE changes exactly the rows
owned by the acting identity, leaving every other row unchanged. -/
theorem bookings_write_requires_owner (db : DB) (uid : Uid) (b : Booking)
    (bid : Nat) (st : BookingStatus) :
    ((insertBooking db uid b).isSome = true ↔ b.user_id = uid)
    ∧ updateBookings db uid bid st
        = { db with bookings := db.bookings.map (fun x => if x.id = bid ∧ x.user_id = uid then { x with status := st } else x) } := by
  constructor
  · by_cases h : (uid == b.user_id)
    · have hb : b.user_id = uid := (beq_iff_eq.mp h).symm
      simp [insertBooking, bookingsInsertCheck, h, hb]
    · have hb : ¬(b.user_id = uid) := fun hh => h (by simp [hh])
      simp [insertBooking, bookingsInsertCheck, h, hb]
  · simp only [updateBookings]
    congr 1
    apply List.map_congr_left
    intro x _
    have hcond : ((x.id == bid && bookingsUpdateUsing uid x) = true)
        ↔ (x.id = bid ∧ x.user_id = uid) := by
      simp only [bookingsUpdateUsing, Bool.and_eq_true, beq_iff_eq]
      exact ⟨fun ⟨h1, h2⟩ => ⟨h1, h2.symm⟩, fun ⟨h1, h2⟩ => ⟨h1, h2.symm⟩⟩
    by_cases h : x.id = bid ∧ x.user_id = uid
    · rw [if_pos (hcond.mpr h), if_pos h]
    · rw [if_neg (fun hc => h (hcond.mp hc)), if_neg h]

/-- Claim C3: with a signed-in user and a selected event the submit
handler builds exactly one insert payload carrying the event id, the
user id, the form's preferences and status pending; executing it always
succeeds and appends exactly that row, and executing a second submission
for the same event and user succeeds again, appending a second row. -/
theorem booking_submit_pending_unchecked (db : DB) (u : Uid) (eid : Nat)
    (fd : FormData) (n1 n2 : Nat) :
    handleBookingSubmit (some u) (some eid) fd
        = [{ event_id := eid, user_id := u, preferences := fd.preferences, status := .pending }]
    ∧ (submittedRow u eid fd n1).event_id = eid
    ∧ (submittedRow u eid fd n1).user_id = u
    ∧ (submittedRow u eid fd n1).preferences = some fd.preferences
    ∧ (submittedRow u eid fd n1).status = .pending
    ∧ insertBooking db u (submittedRow u eid fd n1)
        = some { db with bookings := db.bookings ++ [submittedRow u eid fd n1] }
    ∧ insertBooking { db with bookings := db.bookings ++ [submittedRow u eid fd n1] } u
          (submittedRow u eid fd n2)
        = some { db with bookings := db.bookings ++ [submittedRow u eid fd n1, submittedRow u eid fd n2] } := by
  refine ⟨rfl, rfl, rfl, rfl, rfl, ?_, ?_⟩
  · simp [insertBooking, bookingsInsertCheck, submittedRow, payloadToRow]
  · simp [insertBooking, bookingsInsertCheck, submittedRow, payloadToRow]

/-- Claim C4 counterexample: the client-side status union contains the
label declined, which is not among the labels of the database enum, so
the status field does not take the values pending, confirmed, cancelled
in every representation the program defines. -/
theorem client_status_declined_not_db :
    ClientBookingStatus.declined.toStr ∈ clientBookingStatusStrings
    ∧ ClientBookingStatus.declined.toStr ∉ dbBookingStatusStrings
    ∧ BookingStatus.cancelled.toStr ∉ clientBookingStatusStrings := by
  refine ⟨by decide, by decide, by decide⟩

/-- Claim C4 amended: the database enum takes exactly the values
pending, confirmed, cancelled, while the client-side Booking type takes
exactly pending, confirmed, declined; the label cancelled has no
client-side representation. -/
theorem status_enum_representations :
    (∀ s : BookingStatus, s = .pending ∨ s = .confirmed ∨ s = .cancelled)
    ∧ (∀ s : ClientBookingStatus, s = .pending ∨ s = .confirmed ∨ s = .declined)
    ∧ dbBookingStatusStrings = ["pending", "confirmed", "cancelled"]
    ∧ clientBookingStatusStrings = ["pending", "confirmed", "declined"]
    ∧ BookingStatus.cancelled.toStr ∉ clientBookingStatusStrings := by
  refine ⟨fun s => ?_, fun s => ?_, rfl, rfl, by decide⟩
  · cases s <;> simp
  · cases s <;> simp

/-- Claim C5 counterexample: the schema puts no lower bound on capacity
or price, so an admin insert of an event row with capacity -1 is
admitted and the resulting state holds an event with negative capacity. -/
theorem negative_capacity_write_admitted :
    insertEvent dbAdminOnly 1 negCapacityEvent
        = some { dbAdminOnly with events := [negCapacityEvent] }
    ∧ negCapacityEvent.capacity < 0 := by
  constructor
  · decide
  · decide

/-- Claim C5 amended: every seeded event satisfies capacity ≥ 0 and
price ≥ 0, but no write path enforces the bound: admission of an event
insert depends only on the admin lookup, never on capacity or price,
and a concrete admin write of a negative-capacity event succeeds. -/
theorem event_value_bounds_unenforced (db : DB) (uid : Uid) (e : Event) :
    seedEvents.all (fun x => 0 ≤ x.capacity && 0 ≤ x.price) = true
    ∧ ((insertEvent db uid e).isSome = isAdminExists db uid)
    ∧ insertEvent dbAdminOnly 1 negCapacityEvent ≠ none
    ∧ negCapacityEvent.capacity < 0 := by
  refine ⟨by decide, ?_, by decide, by decide⟩
  by_cases h : isAdminExists db uid <;> simp [insertEvent, eventsInsertCheck, h]

/-- Claim C6 counterexample: a booking whose status is confirmed is
updated back to pending by its owner, so confirmed is not terminal and
a transition into pending from another status occurs. -/
theorem confirmed_to_pending_update_admitted :
    dbConfirmedBooking.bookings.map Booking.status = [.confirmed]
    ∧ (updateBookings dbConfirmedBooking 1 10 .pending).bookings
        = [{ id := 10, event_id := 5, user_id := 1, status := .pending, preferences := none }] := by
  constructor
  · decide
  · decide

/-- Claim C6 amended: the update policy constrains only ownership, not
the status transition: the owner of a booking can set its status to any
of the three enum values whatever its current value, and a booking not
owned by the acting identity is never changed. -/
theorem booking_update_owner_any_status (db : DB) (uid : Uid) (bid : Nat)
    (st : BookingStatus) (b : Booking) (hb : b ∈ db.bookings) :
    (b.id = bid ∧ b.user_id = uid → { b with status := st } ∈ (updateBookings db uid bid st).bookings)
    ∧ (¬(b.id = bid ∧ b.user_id = uid) → b ∈ (updateBookings db uid bid st).bookings) := by
  have hmem := List.mem_map_of_mem
    (fun x => if x.id == bid && bookingsUpdateUsing uid x then { x with status := st } else x) hb
  have hcond : ((b.id == bid && bookingsUpdateUsing uid b) = true)
      ↔ (b.id = bid ∧ b.user_id = uid) := by
    simp only [bookingsUpdateUsing, Bool.and_eq_true, beq_iff_eq]
    exact ⟨fun ⟨h1, h2⟩ => ⟨h1, h2.symm⟩, fun ⟨h1, h2⟩ => ⟨h1, h2.symm⟩⟩
  constructor
  · intro h
    have : ((fun x => if x.id == bid && bookingsUpdateUsing uid x then { x with status := st } else x) b)
        = { b with status := st } := if_pos (hcond.mpr h)
    rw [this] at hmem
    exact hmem
  · intro h
    have : ((fun x => if x.id == bid && bookingsUpdateUsing uid x then { x with status := st } else x) b)
        = b := if_neg (fun hc => h (hcond.mp hc))
    rw [this] at hmem
    exact hmem

/-- Witness for claim C6: in the concrete one-booking database, the
owner moves the confirmed booking to pending. -/
theorem booking_update_owner_any_status_witness :
    ({ id := 10, event_id := 5, user_id := 1, status := .pending, preferences := none } : Booking)
      ∈ (updateBookings dbConfirmedBooking 1 10 .pending).bookings :=
  (booking_update_owner_any_status dbConfirmedBooking 1 10 .pending
    { id := 10, event_id := 5, user_id := 1, status := .confirmed, preferences := none }
    (by decide)).1 ⟨rfl, rfl⟩

/-- Claim C7: the events query of page p asks for the inclusive row
range (p-1)*9 to p*9-1 ordered by date ascending, a span of exactly 9
offsets; the page count is the ceiling of totalCount over 9, which for
the 7 seeded events is exactly 1 page, the first page holding all 7
rows and the second none. -/
theorem pagination_request_and_pages (p : Int) (tc : Nat) :
    fetchEventsRequest p
        = { rangeFrom := (p - 1) * 9, rangeTo := p * 9 - 1,
            orderColumn := "date", ascending := true }
    ∧ (fetchEventsRequest p).rangeTo - (fetchEventsRequest p).rangeFrom + 1 = 9
    ∧ totalPages tc = (tc + 8) / 9
    ∧ seedEvents.length = 7
    ∧ totalPages 7 = 1
    ∧ requestSlice seedEvents (fetchEventsRequest 1) = seedEvents
    ∧ requestSlice seedEvents (fetchEventsRequest 2) = [] := by
  refine ⟨rfl, ?_, totalPages_eq tc, rfl, ?_, rfl, rfl⟩
  · simp only [fetchEventsRequest, ITEMS_PER_PAGE]
    push_cast
    ring
  · rw [totalPages_eq]

/-- Claim C8: when the submission promise rejects, the modal handler
returns the state it started from with isSubmitting forced back to
false: the form data, the success flag and the open flag are untouched
and the submit button is re-enabled. -/
theorem booking_modal_error_frame (s : ModalState) :
    handleSubmit .err s = { s with isSubmitting := false }
    ∧ (handleSubmit .err s).formData = s.formData
    ∧ (handleSubmit .err s).isSuccess = s.isSuccess
    ∧ (handleSubmit .err s).isOpen = s.isOpen
    ∧ submitDisabled (handleSubmit .err s) = false :=
  ⟨rfl, rfl, rfl, rfl, rfl⟩

/-- Claim C9: a bookings SELECT returns exactly the rows whose user_id
equals the acting identity, while the events and profiles SELECTs
return every row. -/
theorem bookings_select_owner_only (db : DB) (uid : Uid) (b : Booking) :
    (b ∈ selectBookings db uid ↔ b ∈ db.bookings ∧ b.user_id = uid)
    ∧ selectEvents db uid = db.events
    ∧ selectProfiles db uid = db.profiles := by
  refine ⟨?_, by simp [selectEvents, eventsSelectUsing], by simp [selectProfiles, profilesSelectUsing]⟩
  rw [selectBookings, List.mem_filter]
  simp only [bookingsSelectUsing, beq_iff_eq]
  exact ⟨fun ⟨h1, h2⟩ => ⟨h1, h2.symm⟩, fun ⟨h1, h2⟩ => ⟨h1, h2.symm⟩⟩

/-- Claim C10 counterexample: for a fetched event of capacity -1 the
transformed card is disabled and labeled Sold Out although its capacity
is not 0, refuting the stated equivalence with capacity = 0. -/
theorem sold_out_negative_capacity :
    soldOut (transformEvent negCapacityEvent) = true
    ∧ bookLabel (transformEvent negCapacityEvent) = "Sold Out"
    ∧ negCapacityEvent.capacity ≠ 0 := by
  refine ⟨by decide, by decide, by decide⟩

/-- Claim C10 amended: every transformed event carries the constant
registeredCount 0, and the card's button is disabled and labeled Sold
Out exactly when the event's capacity is at most 0 (for the
nonnegative capacities of the schema's seed this means capacity 0). -/
theorem transform_registered_zero_sold_out (e : Event) :
    (transformEvent e).registeredCount = 0
    ∧ (soldOut (transformEvent e) = true ↔ e.capacity ≤ 0)
    ∧ (bookLabel (transformEvent e) = "Sold Out" ↔ e.capacity ≤ 0) := by
  refine ⟨rfl, ?_, ?_⟩
  · simp [soldOut, transformEvent, ge_iff_le]
  · by_cases h : e.capacity ≤ 0
    · simp [bookLabel, soldOut, transformEvent, ge_iff_le, h]
    · simp [bookLabel, soldOut, transformEvent, ge_iff_le, h]

end EventMgmt
